import Mathlib

/-!
Shallow embedding of `src/components/mgt-login/mgt-login.ts` (the `MgtLogin`
web component) and verification of its specification.

The component is modelled as a set of methods that, given an environment
(the global authentication provider and the host page's reaction to fired
custom events), produce a trace of primitive actions together with an
optional uncaught exception.  The widget's mutable fields are collected in
`WidgetState`, and applying a trace of actions to a state yields the state
after the method has run.
-/

namespace Mgt

/-- `ProviderState` enum from `providers/IProvider.ts`, observed by the
widget but never mutated by it. -/
inductive ProviderState
  | SignedOut
  | SignedIn
  | Loading
deriving DecidableEq, Repr

/-- A user profile (`IDynamicPerson` from `graph/types`); the widget only
reads `displayName`, so the model keeps exactly that field. -/
structure IDynamicPerson where
  displayName : String
deriving DecidableEq, Repr

/-- The five custom events the component fires (`fireCustomEvent`). -/
inductive EventName
  | loginInitiated
  | loginCompleted
  | loginFailed
  | logoutInitiated
  | logoutCompleted
deriving DecidableEq, Repr

/-- The response of the batched graph fetch issued by `loadState`:
`response.me` (profile) and `response.photo` (avatar image).  Either field
may be absent in the delivered response, hence `Option`. -/
structure BatchResponse where
  me : Option IDynamicPerson
  photo : Option String
deriving DecidableEq, Repr

/-- An exception value thrown by an awaited provider operation. -/
structure ProviderError where
  msg : String
deriving DecidableEq, Repr

/-- Model of the external authentication provider (`Providers.globalProvider`):
whether it supplies `login` / `logout` operations, its session state as
observed by `loadState`, the outcome of awaiting `login()` (an exception, or
the provider state observed right after the await), the outcome of awaiting
`logout()`, and the outcome of awaiting the batched graph fetch. -/
structure Provider where
  hasLogin : Bool
  hasLogout : Bool
  state : ProviderState
  loginOutcome : Except ProviderError ProviderState
  logoutOutcome : Except ProviderError Unit
  batchOutcome : Except ProviderError BatchResponse

/-- The environment a method call runs in: the global provider (possibly
null) and, for each fired custom event, whether the host page's listeners
leave it uncancelled (`allow e = true` means `fireCustomEvent e` returns
`true`; a cancelled / suppressed event returns `false`). -/
structure Env where
  provider : Option Provider
  allow : EventName → Bool

/-- The widget's mutable fields: `userDetails` (public property),
`_image` (cached avatar), `_isFlyoutOpen`, and whether the flyout element
is present in the render root (`renderRoot.querySelector('.flyout')`
returns non-null). -/
structure WidgetState where
  userDetails : Option IDynamicPerson
  image : Option String
  isFlyoutOpen : Bool
  flyoutPresent : Bool
deriving DecidableEq, Repr

/-- Primitive observable actions a method execution performs, in order. -/
inductive Action
  | fireEvent (e : EventName)
  | providerLogin
  | providerLogout
  | batchGet (id resource : String)
  | batchExecute
  | setUserDetails (d : Option IDynamicPerson)
  | setImage (i : Option String)
  | openFlyout
  | closeFlyout
deriving DecidableEq, Repr

namespace MgtLogin

/-- The constructor: `_isFlyoutOpen = false`, no user details, no cached
image.  Whether the flyout element exists in the render root is a parameter
of the model. -/
def init (flyoutPresent : Bool) : WidgetState :=
  { userDetails := none, image := none, isFlyoutOpen := false,
    flyoutPresent := flyoutPresent }

/-- `showFlyout()`: look up the flyout element and, if present, open it
(the `@opened` handler then sets `_isFlyoutOpen = true`). -/
def showFlyout (s : WidgetState) : WidgetState :=
  if s.flyoutPresent then { s with isFlyoutOpen := true } else s

/-- `hideFlyout()`: look up the flyout element and, if present, close it
(the `@closed` handler then sets `_isFlyoutOpen = false`). -/
def hideFlyout (s : WidgetState) : WidgetState :=
  if s.flyoutPresent then { s with isFlyoutOpen := false } else s

end MgtLogin

/-- Effect of one primitive action on the widget state.  Firing events and
calling the provider do not touch the widget's fields. -/
def applyAction (s : WidgetState) : Action → WidgetState
  | Action.fireEvent _ => s
  | Action.providerLogin => s
  | Action.providerLogout => s
  | Action.batchGet _ _ => s
  | Action.batchExecute => s
  | Action.setUserDetails d => { s with userDetails := d }
  | Action.setImage i => { s with image := i }
  | Action.openFlyout => MgtLogin.showFlyout s
  | Action.closeFlyout => MgtLogin.hideFlyout s

/-- Run a trace of actions over a widget state, left to right. -/
def runActions (s : WidgetState) (t : List Action) : WidgetState :=
  t.foldl applyAction s

/-- The custom events fired along a trace, in order. -/
def firedEvents (t : List Action) : List EventName :=
  t.filterMap fun a =>
    match a with
    | Action.fireEvent e => some e
    | _ => none

/-- Result of executing one method: the ordered trace of actions it
performed, and `some e` when it ended by propagating an uncaught
exception `e` (the actions already performed still took effect). -/
structure MethodResult where
  trace : List Action
  exn : Option ProviderError
deriving Repr

namespace MgtLogin

/-- `login()`:
`if (this.userDetails || !this.fireCustomEvent('loginInitiated')) return;`
then, when a global provider with a `login` operation exists,
`await provider.login()` and fire `loginCompleted` when
`provider.state === ProviderState.SignedIn`, `loginFailed` otherwise.
No exception is caught; an exception from `provider.login()` propagates. -/
def login (env : Env) (s : WidgetState) : MethodResult :=
  if s.userDetails.isSome then
    { trace := [], exn := none }
  else if env.allow EventName.loginInitiated then
    match env.provider with
    | none => { trace := [Action.fireEvent EventName.loginInitiated], exn := none }
    | some p =>
      if p.hasLogin then
        match p.loginOutcome with
        | Except.error e =>
          { trace := [Action.fireEvent EventName.loginInitiated, Action.providerLogin],
            exn := some e }
        | Except.ok st =>
          { trace := [Action.fireEvent EventName.loginInitiated, Action.providerLogin,
              Action.fireEvent
                (if st = ProviderState.SignedIn then EventName.loginCompleted
                 else EventName.loginFailed)],
            exn := none }
      else { trace := [Action.fireEvent EventName.loginInitiated], exn := none }
  else
    { trace := [Action.fireEvent EventName.loginInitiated], exn := none }

/-- `logout()`:
`if (!this.fireCustomEvent('logoutInitiated')) return;` then, when a global
provider with a `logout` operation exists, `await provider.logout()`, set
`this.userDetails = null`, call `hideFlyout()`, and fire `logoutCompleted`.
The cached `_image` is not written.  No exception is caught. -/
def logout (env : Env) : MethodResult :=
  if env.allow EventName.logoutInitiated then
    match env.provider with
    | none => { trace := [Action.fireEvent EventName.logoutInitiated], exn := none }
    | some p =>
      if p.hasLogout then
        match p.logoutOutcome with
        | Except.error e =>
          { trace := [Action.fireEvent EventName.logoutInitiated, Action.providerLogout],
            exn := some e }
        | Except.ok _ =>
          { trace := [Action.fireEvent EventName.logoutInitiated, Action.providerLogout,
              Action.setUserDetails none, Action.closeFlyout,
              Action.fireEvent EventName.logoutCompleted],
            exn := none }
      else { trace := [Action.fireEvent EventName.logoutInitiated], exn := none }
  else
    { trace := [Action.fireEvent EventName.logoutInitiated], exn := none }

/-- `loadState()`: when a global provider exists and `this.userDetails` is
absent: if `provider.state === SignedIn`, create a batch, `get('me','me')`,
`get('photo','me/photo/$value')`, await `batch.execute()`, then set
`this._image = response.photo` and `this.userDetails = response.me`;
otherwise set `this.userDetails = null`.  When no provider exists or user
details are already cached, nothing happens. -/
def loadState (env : Env) (s : WidgetState) : MethodResult :=
  match env.provider with
  | none => { trace := [], exn := none }
  | some p =>
    if s.userDetails.isSome then
      { trace := [], exn := none }
    else if p.state = ProviderState.SignedIn then
      match p.batchOutcome with
      | Except.error e =>
        { trace := [Action.batchGet "me" "me",
            Action.batchGet "photo" "me/photo/$value", Action.batchExecute],
          exn := some e }
      | Except.ok resp =>
        { trace := [Action.batchGet "me" "me",
            Action.batchGet "photo" "me/photo/$value", Action.batchExecute,
            Action.setImage resp.photo, Action.setUserDetails resp.me],
          exn := none }
    else
      { trace := [Action.setUserDetails none], exn := none }

/-- `onClick()`: with user details present, `showFlyout()`; otherwise
`this.login()`. -/
def onClick (env : Env) (s : WidgetState) : MethodResult :=
  if s.userDetails.isSome then
    { trace := [Action.openFlyout], exn := none }
  else
    login env s

/-- The content slot rendered by `renderFlyoutContent()`: nothing when user
details are absent, otherwise the profile (`mgt-person` with the cached
image) together with the Sign Out command. -/
inductive FlyoutContent
  | profileAndSignOut (details : IDynamicPerson) (image : Option String)
deriving DecidableEq, Repr

/-- `renderFlyoutContent()`: `if (!this.userDetails) return;` else render
the popup with the person card and the Sign Out button. -/
def renderFlyoutContent (s : WidgetState) : Option FlyoutContent :=
  match s.userDetails with
  | none => none
  | some d => some (FlyoutContent.profileAndSignOut d s.image)

end MgtLogin

/-- One method-level transition of the widget: some method runs to
completion (or up to an uncaught exception) in some environment and its
trace is applied to the state. -/
inductive Step : WidgetState → WidgetState → Prop
  | login (env : Env) (s : WidgetState) :
      Step s (runActions s (MgtLogin.login env s).trace)
  | logout (env : Env) (s : WidgetState) :
      Step s (runActions s (MgtLogin.logout env).trace)
  | loadState (env : Env) (s : WidgetState) :
      Step s (runActions s (MgtLogin.loadState env s).trace)
  | onClick (env : Env) (s : WidgetState) :
      Step s (runActions s (MgtLogin.onClick env s).trace)

/-- States reachable from the constructor through the widget's own
methods. -/
inductive Reachable : WidgetState → Prop
  | init (fp : Bool) : Reachable (MgtLogin.init fp)
  | step {s t : WidgetState} : Reachable s → Step s t → Reachable t

/-! ### Concrete fixtures used by witnesses and counterexamples -/

/-- A provider whose `login` resolves to a `SignedIn` state, whose
`logout` resolves, and whose batch fetch succeeds. -/
def pOk : Provider :=
  { hasLogin := true, hasLogout := true, state := ProviderState.SignedIn,
    loginOutcome := Except.ok ProviderState.SignedIn,
    logoutOutcome := Except.ok (),
    batchOutcome := Except.ok
      { me := some { displayName := "Megan Bowen" }, photo := some "photo-bytes" } }

/-- A provider whose `login` resolves but leaves the state `SignedOut`. -/
def pFail : Provider :=
  { pOk with loginOutcome := Except.ok ProviderState.SignedOut,
             state := ProviderState.SignedOut }

/-- A provider whose awaited `login` throws. -/
def pThrow : Provider :=
  { pOk with loginOutcome := Except.error { msg := "interaction required" } }

/-- A provider exposing neither a `login` nor a `logout` operation. -/
def pNoOps : Provider :=
  { pOk with hasLogin := false, hasLogout := false }

/-- Environment with `pOk` installed and no listener cancelling any event. -/
def envOk : Env := { provider := some pOk, allow := fun _ => true }

/-- Environment with `pFail` installed, nothing cancelled. -/
def envFail : Env := { provider := some pFail, allow := fun _ => true }

/-- Environment with `pThrow` installed, nothing cancelled. -/
def envThrow : Env := { provider := some pThrow, allow := fun _ => true }

/-- Environment with `pNoOps` installed, nothing cancelled. -/
def envNoOps : Env := { provider := some pNoOps, allow := fun _ => true }

/-- Environment with no global provider, nothing cancelled. -/
def envNoProvider : Env := { provider := none, allow := fun _ => true }

/-- Environment with `pOk` installed and every event cancelled. -/
def envSuppress : Env := { provider := some pOk, allow := fun _ => false }

/-- Freshly constructed widget whose flyout element is rendered. -/
def sEmpty : WidgetState := MgtLogin.init true

/-- A signed-in widget state: cached details and avatar, flyout open. -/
def sSigned : WidgetState :=
  { userDetails := some { displayName := "Megan Bowen" },
    image := some "photo-bytes", isFlyoutOpen := true, flyoutPresent := true }

/-- Whether an action writes one of the widget's mutable fields.  Firing
events, calling the provider and issuing batch requests do not. -/
def Action.writes : Action → Bool
  | Action.setUserDetails _ => true
  | Action.setImage _ => true
  | Action.openFlyout => true
  | Action.closeFlyout => true
  | _ => false

/-- The flyout invariant: an open flyout requires the flyout element to be
present and user details to be cached. -/
def Inv (s : WidgetState) : Prop :=
  s.isFlyoutOpen = true → s.flyoutPresent = true ∧ s.userDetails ≠ none

/-- The widget after `loadState()` ran on a fresh instance with `pOk`
installed: details and avatar populated from the batch response. -/
def sLoaded : WidgetState :=
  runActions (MgtLogin.init true)
    (MgtLogin.loadState envOk (MgtLogin.init true)).trace

/-- The widget after a click on `sLoaded`: the detail flyout is open. -/
def sOpen : WidgetState :=
  runActions sLoaded (MgtLogin.onClick envOk sLoaded).trace

/-! ### Helper lemmas -/

/-- A trace of non-writing actions leaves the widget state unchanged. -/
theorem runActions_eq_of_no_writes (t : List Action) :
    ∀ s : WidgetState, (∀ a ∈ t, a.writes = false) → runActions s t = s := by
  induction t with
  | nil => intro s _; rfl
  | cons a t ih =>
    intro s h
    have ha := h a (List.mem_cons_self a t)
    have ht : ∀ b ∈ t, b.writes = false := fun b hb => h b (List.mem_cons_of_mem a hb)
    have hs : applyAction s a = s := by
      cases a <;> simp [Action.writes] at ha ⊢ <;> simp [applyAction]
    calc runActions s (a :: t) = runActions (applyAction s a) t := rfl
      _ = runActions s t := by rw [hs]
      _ = s := ih s ht

/-- A non-writing action is neither a `setUserDetails` nor a `setImage`. -/
theorem not_set_of_not_writes (a : Action) (h : a.writes = false) :
    (∀ d, a ≠ Action.setUserDetails d) ∧ ∀ i, a ≠ Action.setImage i := by
  cases a <;> simp_all [Action.writes]

/-- Every action `login()` performs is non-writing: it only fires events
and calls the provider. -/
theorem login_trace_no_writes (env : Env) (s : WidgetState) :
    ∀ a ∈ (MgtLogin.login env s).trace, a.writes = false := by
  by_cases hud : s.userDetails.isSome
  · simp [MgtLogin.login, hud]
  · by_cases hal : env.allow EventName.loginInitiated
    · cases hprov : env.provider with
      | none => simp [MgtLogin.login, hud, hal, hprov, Action.writes]
      | some p =>
        by_cases hhl : p.hasLogin
        · cases hout : p.loginOutcome with
          | error e =>
            simp [MgtLogin.login, hud, hal, hprov, hhl, hout, Action.writes]
          | ok st =>
            simp [MgtLogin.login, hud, hal, hprov, hhl, hout, Action.writes]
        · simp [MgtLogin.login, hud, hal, hprov, hhl, Action.writes]
    · simp [MgtLogin.login, hud, hal, Action.writes]

/-! ### Claim theorems -/

/-- C1: when `login()` runs with no cached user details, an uncancelled
`loginInitiated`, and a global provider with a `login` operation whose
awaited call resolves leaving provider state `st`, then exactly one of
`loginCompleted` / `loginFailed` fires: `loginCompleted` iff `st` is
`SignedIn`, `loginFailed` iff it is not, never both. -/
theorem C1_login_outcome_classification (env : Env) (s : WidgetState)
    (p : Provider) (st : ProviderState)
    (hud : s.userDetails = none)
    (hallow : env.allow EventName.loginInitiated = true)
    (hp : env.provider = some p)
    (hl : p.hasLogin = true)
    (hout : p.loginOutcome = Except.ok st) :
    (EventName.loginCompleted ∈ firedEvents (MgtLogin.login env s).trace ↔
      st = ProviderState.SignedIn) ∧
    (EventName.loginFailed ∈ firedEvents (MgtLogin.login env s).trace ↔
      st ≠ ProviderState.SignedIn) ∧
    (firedEvents (MgtLogin.login env s).trace).count EventName.loginCompleted +
      (firedEvents (MgtLogin.login env s).trace).count EventName.loginFailed = 1 := by
  by_cases h : st = ProviderState.SignedIn <;>
    simp [MgtLogin.login, hud, hallow, hp, hl, hout, h, firedEvents, List.count_cons]

/-- Witness for C1 at a concrete signed-in outcome. -/
theorem C1_witness :
    (sEmpty.userDetails = none ∧ envOk.allow EventName.loginInitiated = true ∧
      envOk.provider = some pOk ∧ pOk.hasLogin = true ∧
      pOk.loginOutcome = Except.ok ProviderState.SignedIn) ∧
    ((EventName.loginCompleted ∈ firedEvents (MgtLogin.login envOk sEmpty).trace ↔
        ProviderState.SignedIn = ProviderState.SignedIn) ∧
      (EventName.loginFailed ∈ firedEvents (MgtLogin.login envOk sEmpty).trace ↔
        ProviderState.SignedIn ≠ ProviderState.SignedIn) ∧
      (firedEvents (MgtLogin.login envOk sEmpty).trace).count EventName.loginCompleted +
        (firedEvents (MgtLogin.login envOk sEmpty).trace).count EventName.loginFailed = 1) :=
  ⟨⟨rfl, rfl, rfl, rfl, rfl⟩,
    C1_login_outcome_classification envOk sEmpty pOk ProviderState.SignedIn
      rfl rfl rfl rfl rfl⟩

/-- C3: when a listener cancels `loginInitiated` (and user details are
absent, so the event is actually dispatched), `login()` returns having
performed no provider call: the trace is just the dispatched
`loginInitiated`, no exception escapes, neither `loginCompleted` nor
`loginFailed` fires, and the widget state is unchanged. -/
theorem C3_suppressed_login_is_inert (env : Env) (s : WidgetState)
    (hud : s.userDetails = none)
    (hsup : env.allow EventName.loginInitiated = false) :
    (MgtLogin.login env s).trace = [Action.fireEvent EventName.loginInitiated] ∧
    (MgtLogin.login env s).exn = none ∧
    Action.providerLogin ∉ (MgtLogin.login env s).trace ∧
    EventName.loginCompleted ∉ firedEvents (MgtLogin.login env s).trace ∧
    EventName.loginFailed ∉ firedEvents (MgtLogin.login env s).trace ∧
    runActions s (MgtLogin.login env s).trace = s := by
  simp [MgtLogin.login, hud, hsup, firedEvents, runActions, applyAction]

/-- Witness for C3 at a concrete suppressed call. -/
theorem C3_witness :
    (sEmpty.userDetails = none ∧
      envSuppress.allow EventName.loginInitiated = false) ∧
    ((MgtLogin.login envSuppress sEmpty).trace =
        [Action.fireEvent EventName.loginInitiated] ∧
      (MgtLogin.login envSuppress sEmpty).exn = none ∧
      Action.providerLogin ∉ (MgtLogin.login envSuppress sEmpty).trace ∧
      EventName.loginCompleted ∉ firedEvents (MgtLogin.login envSuppress sEmpty).trace ∧
      EventName.loginFailed ∉ firedEvents (MgtLogin.login envSuppress sEmpty).trace ∧
      runActions sEmpty (MgtLogin.login envSuppress sEmpty).trace = sEmpty) :=
  ⟨⟨rfl, rfl⟩, C3_suppressed_login_is_inert envSuppress sEmpty rfl rfl⟩

/-- C7: when user details are already present, `login()` is a complete
no-op: empty trace (so not even `loginInitiated` fires, no provider call),
no exception, and the widget state is untouched. -/
theorem C7_login_noop_when_details_present (env : Env) (s : WidgetState)
    (hud : s.userDetails.isSome = true) :
    (MgtLogin.login env s).trace = [] ∧
    (MgtLogin.login env s).exn = none ∧
    firedEvents (MgtLogin.login env s).trace = [] ∧
    runActions s (MgtLogin.login env s).trace = s := by
  simp [MgtLogin.login, hud, firedEvents, runActions]

/-- C8: `login()` catches no exception: when the awaited provider `login`
throws, the exception propagates out of `login()`, only `loginInitiated`
has fired (neither `loginCompleted` nor `loginFailed`); moreover, in every
execution whatsoever, a fired `loginFailed` comes from observing a
non-`SignedIn` provider state after a resolving `login`, never from a
caught exception. -/
theorem C8_login_exception_propagates (env : Env) (s : WidgetState)
    (p : Provider) (e : ProviderError)
    (hud : s.userDetails = none)
    (hallow : env.allow EventName.loginInitiated = true)
    (hp : env.provider = some p)
    (hl : p.hasLogin = true)
    (herr : p.loginOutcome = Except.error e) :
    (MgtLogin.login env s).exn = some e ∧
    firedEvents (MgtLogin.login env s).trace = [EventName.loginInitiated] ∧
    EventName.loginCompleted ∉ firedEvents (MgtLogin.login env s).trace ∧
    EventName.loginFailed ∉ firedEvents (MgtLogin.login env s).trace ∧
    (∀ (env' : Env) (s' : WidgetState),
      EventName.loginFailed ∈ firedEvents (MgtLogin.login env' s').trace →
        ∃ (p' : Provider) (st : ProviderState),
          env'.provider = some p' ∧ p'.loginOutcome = Except.ok st ∧
          st ≠ ProviderState.SignedIn ∧ (MgtLogin.login env' s').exn = none) := by
  refine ⟨?_, ?_, ?_, ?_, ?_⟩
  · simp [MgtLogin.login, hud, hallow, hp, hl, herr]
  · simp [MgtLogin.login, hud, hallow, hp, hl, herr, firedEvents]
  · simp [MgtLogin.login, hud, hallow, hp, hl, herr, firedEvents]
  · simp [MgtLogin.login, hud, hallow, hp, hl, herr, firedEvents]
  · intro env' s' hmem
    by_cases hud' : s'.userDetails.isSome
    · simp [MgtLogin.login, hud', firedEvents] at hmem
    · by_cases hal' : env'.allow EventName.loginInitiated
      · cases hprov : env'.provider with
        | none => simp [MgtLogin.login, hud', hal', hprov, firedEvents] at hmem
        | some p' =>
          by_cases hhl : p'.hasLogin
          · cases hout : p'.loginOutcome with
            | error e' =>
              simp [MgtLogin.login, hud', hal', hprov, hhl, hout, firedEvents] at hmem
            | ok st =>
              by_cases hst : st = ProviderState.SignedIn
              · simp [MgtLogin.login, hud', hal', hprov, hhl, hout, hst,
                  firedEvents] at hmem
              · exact ⟨p', st, rfl, hout, hst,
                  by simp [MgtLogin.login, hud', hal', hprov, hhl, hout]⟩
          · simp [MgtLogin.login, hud', hal', hprov, hhl, firedEvents] at hmem
      · simp [MgtLogin.login, hud', hal', firedEvents] at hmem

/-- Witness for C8 at a concrete throwing provider. -/
theorem C8_witness :
    (sEmpty.userDetails = none ∧
      envThrow.allow EventName.loginInitiated = true ∧
      envThrow.provider = some pThrow ∧ pThrow.hasLogin = true ∧
      pThrow.loginOutcome = Except.error { msg := "interaction required" }) ∧
    ((MgtLogin.login envThrow sEmpty).exn = some { msg := "interaction required" } ∧
      firedEvents (MgtLogin.login envThrow sEmpty).trace = [EventName.loginInitiated] ∧
      EventName.loginCompleted ∉ firedEvents (MgtLogin.login envThrow sEmpty).trace ∧
      EventName.loginFailed ∉ firedEvents (MgtLogin.login envThrow sEmpty).trace ∧
      (∀ (env' : Env) (s' : WidgetState),
        EventName.loginFailed ∈ firedEvents (MgtLogin.login env' s').trace →
          ∃ (p' : Provider) (st : ProviderState),
            env'.provider = some p' ∧ p'.loginOutcome = Except.ok st ∧
            st ≠ ProviderState.SignedIn ∧ (MgtLogin.login env' s').exn = none)) :=
  ⟨⟨rfl, rfl, rfl, rfl, rfl⟩,
    C8_login_exception_propagates envThrow sEmpty pThrow
      { msg := "interaction required" } rfl rfl rfl rfl rfl⟩

/-- C9: when the global provider is null or lacks the corresponding
operation, `login()` (past its user-details guard) and `logout()` each
dispatch only their initiated event, perform no provider call, fire no
completed / failed event, raise nothing, and leave the widget state
unchanged. -/
theorem C9_missing_provider_operation_is_inert (env : Env) (s : WidgetState) :
    ((env.provider = none ∨ ∃ p, env.provider = some p ∧ p.hasLogin = false) →
      s.userDetails = none →
      (MgtLogin.login env s).trace = [Action.fireEvent EventName.loginInitiated] ∧
      (MgtLogin.login env s).exn = none ∧
      Action.providerLogin ∉ (MgtLogin.login env s).trace ∧
      EventName.loginCompleted ∉ firedEvents (MgtLogin.login env s).trace ∧
      EventName.loginFailed ∉ firedEvents (MgtLogin.login env s).trace ∧
      runActions s (MgtLogin.login env s).trace = s) ∧
    ((env.provider = none ∨ ∃ p, env.provider = some p ∧ p.hasLogout = false) →
      (MgtLogin.logout env).trace = [Action.fireEvent EventName.logoutInitiated] ∧
      (MgtLogin.logout env).exn = none ∧
      Action.providerLogout ∉ (MgtLogin.logout env).trace ∧
      EventName.logoutCompleted ∉ firedEvents (MgtLogin.logout env).trace ∧
      runActions s (MgtLogin.logout env).trace = s) := by
  constructor
  · rintro (hp | ⟨p, hp, hnl⟩) hud
    · by_cases hal : env.allow EventName.loginInitiated <;>
        simp [MgtLogin.login, hud, hal, hp, firedEvents, runActions, applyAction]
    · by_cases hal : env.allow EventName.loginInitiated <;>
        simp [MgtLogin.login, hud, hal, hp, hnl, firedEvents, runActions, applyAction]
  · rintro (hp | ⟨p, hp, hnl⟩)
    · by_cases hal : env.allow EventName.logoutInitiated <;>
        simp [MgtLogin.logout, hal, hp, firedEvents, runActions, applyAction]
    · by_cases hal : env.allow EventName.logoutInitiated <;>
        simp [MgtLogin.logout, hal, hp, hnl, firedEvents, runActions, applyAction]

/-- Witness for C9 with no provider installed. -/
theorem C9_witness :
    ((envNoProvider.provider = none ∨
        ∃ p, envNoProvider.provider = some p ∧ p.hasLogin = false) ∧
      sEmpty.userDetails = none ∧
      (MgtLogin.login envNoProvider sEmpty).trace =
        [Action.fireEvent EventName.loginInitiated] ∧
      (MgtLogin.login envNoProvider sEmpty).exn = none ∧
      Action.providerLogin ∉ (MgtLogin.login envNoProvider sEmpty).trace ∧
      EventName.loginCompleted ∉ firedEvents (MgtLogin.login envNoProvider sEmpty).trace ∧
      EventName.loginFailed ∉ firedEvents (MgtLogin.login envNoProvider sEmpty).trace ∧
      runActions sEmpty (MgtLogin.login envNoProvider sEmpty).trace = sEmpty) ∧
    ((envNoProvider.provider = none ∨
        ∃ p, envNoProvider.provider = some p ∧ p.hasLogout = false) ∧
      (MgtLogin.logout envNoProvider).trace =
        [Action.fireEvent EventName.logoutInitiated] ∧
      (MgtLogin.logout envNoProvider).exn = none ∧
      Action.providerLogout ∉ (MgtLogin.logout envNoProvider).trace ∧
      EventName.logoutCompleted ∉ firedEvents (MgtLogin.logout envNoProvider).trace ∧
      runActions sEmpty (MgtLogin.logout envNoProvider).trace = sEmpty) :=
  ⟨⟨Or.inl rfl, rfl,
      (C9_missing_provider_operation_is_inert envNoProvider sEmpty).1 (Or.inl rfl) rfl⟩,
    ⟨Or.inl rfl,
      (C9_missing_provider_operation_is_inert envNoProvider sEmpty).2 (Or.inl rfl)⟩⟩

/-- C10: `login()` never writes the cached user details or avatar image,
whatever the environment and starting state: its trace contains no
`setUserDetails` and no `setImage` action, and it leaves the whole widget
state (in particular both fields) unchanged. -/
theorem C10_login_preserves_details_and_image (env : Env) (s : WidgetState) :
    (runActions s (MgtLogin.login env s).trace).userDetails = s.userDetails ∧
    (runActions s (MgtLogin.login env s).trace).image = s.image ∧
    runActions s (MgtLogin.login env s).trace = s ∧
    (∀ a ∈ (MgtLogin.login env s).trace,
      (∀ d, a ≠ Action.setUserDetails d) ∧ ∀ i, a ≠ Action.setImage i) := by
  have h := login_trace_no_writes env s
  have hrun := runActions_eq_of_no_writes _ s h
  exact ⟨by rw [hrun], by rw [hrun], hrun,
    fun a ha => not_set_of_not_writes a (h a ha)⟩

/-- Witness for C7 at a concrete signed-in state. -/
theorem C7_witness :
    sSigned.userDetails.isSome = true ∧
    ((MgtLogin.login envOk sSigned).trace = [] ∧
      (MgtLogin.login envOk sSigned).exn = none ∧
      firedEvents (MgtLogin.login envOk sSigned).trace = [] ∧
      runActions sSigned (MgtLogin.login envOk sSigned).trace = sSigned) :=
  ⟨rfl, C7_login_noop_when_details_present envOk sSigned rfl⟩

/-- C2 counterexample: with an uncancelled `logoutInitiated` and a
provider whose `logout` resolves, run from a state whose cached avatar is
`some "photo-bytes"`: after `logout()` the cached image is still
`some "photo-bytes"`, not cleared — refuting the claim that the cached
avatar image is cleared before `logoutCompleted` fires. -/
theorem C2_counterexample :
    envOk.allow EventName.logoutInitiated = true ∧
    envOk.provider = some pOk ∧ pOk.hasLogout = true ∧
    pOk.logoutOutcome = Except.ok () ∧
    sSigned.image = some "photo-bytes" ∧
    EventName.logoutCompleted ∈ firedEvents (MgtLogin.logout envOk).trace ∧
    (runActions sSigned (MgtLogin.logout envOk).trace).image = some "photo-bytes" ∧
    (runActions sSigned (MgtLogin.logout envOk).trace).image ≠ none := by
  refine ⟨rfl, rfl, rfl, rfl, rfl, ?_, rfl, ?_⟩ <;> decide

/-- C2 (amended): when `logoutInitiated` is not cancelled and a global
provider with a resolving `logout` operation exists, `logout()` awaits the
provider's logout, then clears the cached user details and closes any open
flyout, both before `logoutCompleted` fires (the trace fixes this order);
the cached avatar image is left unchanged. -/
theorem C2_logout_clears_details_closes_flyout (env : Env) (s : WidgetState)
    (p : Provider)
    (hallow : env.allow EventName.logoutInitiated = true)
    (hp : env.provider = some p)
    (hl : p.hasLogout = true)
    (hout : p.logoutOutcome = Except.ok ()) :
    (MgtLogin.logout env).trace =
      [Action.fireEvent EventName.logoutInitiated, Action.providerLogout,
       Action.setUserDetails none, Action.closeFlyout,
       Action.fireEvent EventName.logoutCompleted] ∧
    (MgtLogin.logout env).exn = none ∧
    (runActions s (MgtLogin.logout env).trace).userDetails = none ∧
    (s.flyoutPresent = true →
      (runActions s (MgtLogin.logout env).trace).isFlyoutOpen = false) ∧
    (runActions s (MgtLogin.logout env).trace).image = s.image := by
  refine ⟨?_, ?_, ?_, ?_, ?_⟩ <;>
    by_cases hf : s.flyoutPresent <;>
      simp [MgtLogin.logout, hallow, hp, hl, hout, runActions, applyAction,
        MgtLogin.hideFlyout, hf]

/-- Witness for the amended C2 at a concrete signed-in state. -/
theorem C2_witness :
    (envOk.allow EventName.logoutInitiated = true ∧
      envOk.provider = some pOk ∧ pOk.hasLogout = true ∧
      pOk.logoutOutcome = Except.ok ()) ∧
    ((MgtLogin.logout envOk).trace =
        [Action.fireEvent EventName.logoutInitiated, Action.providerLogout,
         Action.setUserDetails none, Action.closeFlyout,
         Action.fireEvent EventName.logoutCompleted] ∧
      (MgtLogin.logout envOk).exn = none ∧
      (runActions sSigned (MgtLogin.logout envOk).trace).userDetails = none ∧
      (sSigned.flyoutPresent = true →
        (runActions sSigned (MgtLogin.logout envOk).trace).isFlyoutOpen = false) ∧
      (runActions sSigned (MgtLogin.logout envOk).trace).image = sSigned.image) :=
  ⟨⟨rfl, rfl, rfl, rfl⟩,
    C2_logout_clears_details_closes_flyout envOk sSigned pOk rfl rfl rfl rfl⟩

/-- C4 counterexample: a global provider exists (state `SignedIn`) but
user details are already cached, so the claim's "otherwise" branch
applies; yet `loadState()` performs nothing and the user details remain
cached, not cleared — refuting "otherwise the user details are cleared". -/
theorem C4_counterexample :
    envOk.provider = some pOk ∧
    sSigned.userDetails = some { displayName := "Megan Bowen" } ∧
    (MgtLogin.loadState envOk sSigned).trace = [] ∧
    (runActions sSigned (MgtLogin.loadState envOk sSigned).trace).userDetails =
      some { displayName := "Megan Bowen" } ∧
    (runActions sSigned (MgtLogin.loadState envOk sSigned).trace).userDetails ≠
      none := by
  refine ⟨rfl, rfl, rfl, rfl, ?_⟩; decide

/-- C4 (amended): if a global provider exists, its state is `SignedIn` and
no user details are cached, `loadState()` issues one batched fetch of
`me` and `me/photo/$value` and, when it resolves, populates the cached
avatar image and user details from that one response; if a provider exists,
no details are cached and the state is not `SignedIn`, it sets the user
details to null; when no provider exists, or user details are already
cached, it changes nothing. -/
theorem C4_loadState_cases (env : Env) (s : WidgetState) :
    (env.provider = none →
      (MgtLogin.loadState env s).trace = [] ∧
      runActions s (MgtLogin.loadState env s).trace = s) ∧
    (∀ p : Provider, env.provider = some p → s.userDetails.isSome = true →
      (MgtLogin.loadState env s).trace = [] ∧
      runActions s (MgtLogin.loadState env s).trace = s) ∧
    (∀ (p : Provider) (resp : BatchResponse),
      env.provider = some p → s.userDetails = none →
      p.state = ProviderState.SignedIn → p.batchOutcome = Except.ok resp →
      (MgtLogin.loadState env s).trace =
        [Action.batchGet "me" "me", Action.batchGet "photo" "me/photo/$value",
         Action.batchExecute, Action.setImage resp.photo,
         Action.setUserDetails resp.me] ∧
      (runActions s (MgtLogin.loadState env s).trace).image = resp.photo ∧
      (runActions s (MgtLogin.loadState env s).trace).userDetails = resp.me) ∧
    (∀ p : Provider, env.provider = some p → s.userDetails = none →
      p.state ≠ ProviderState.SignedIn →
      (MgtLogin.loadState env s).trace = [Action.setUserDetails none] ∧
      (runActions s (MgtLogin.loadState env s).trace).userDetails = none) := by
  refine ⟨?_, ?_, ?_, ?_⟩
  · intro hp
    simp [MgtLogin.loadState, hp, runActions]
  · intro p hp hud
    simp [MgtLogin.loadState, hp, hud, runActions]
  · intro p resp hp hud hst hout
    simp [MgtLogin.loadState, hp, hud, hst, hout, runActions, applyAction]
  · intro p hp hud hst
    simp [MgtLogin.loadState, hp, hud, hst, runActions, applyAction]

/-- Witness for the amended C4 on the signed-in batch branch. -/
theorem C4_witness :
    (envOk.provider = some pOk ∧ sEmpty.userDetails = none ∧
      pOk.state = ProviderState.SignedIn ∧
      pOk.batchOutcome = Except.ok
        { me := some { displayName := "Megan Bowen" },
          photo := some "photo-bytes" }) ∧
    ((MgtLogin.loadState envOk sEmpty).trace =
        [Action.batchGet "me" "me", Action.batchGet "photo" "me/photo/$value",
         Action.batchExecute, Action.setImage (some "photo-bytes"),
         Action.setUserDetails (some { displayName := "Megan Bowen" })] ∧
      (runActions sEmpty (MgtLogin.loadState envOk sEmpty).trace).image =
        some "photo-bytes" ∧
      (runActions sEmpty (MgtLogin.loadState envOk sEmpty).trace).userDetails =
        some { displayName := "Megan Bowen" }) :=
  ⟨⟨rfl, rfl, rfl, rfl⟩,
    (C4_loadState_cases envOk sEmpty).2.2.1 pOk
      { me := some { displayName := "Megan Bowen" }, photo := some "photo-bytes" }
      rfl rfl rfl rfl⟩

/-- C5: a click with user details present performs exactly `showFlyout()`
(so with the flyout element rendered it opens the flyout and neither calls
the provider nor fires events); a click with no user details is exactly a
call to `login()`. -/
theorem C5_click_routing (env : Env) (s : WidgetState) :
    (s.userDetails.isSome = true →
      (MgtLogin.onClick env s).trace = [Action.openFlyout] ∧
      (MgtLogin.onClick env s).exn = none ∧
      (s.flyoutPresent = true →
        (runActions s (MgtLogin.onClick env s).trace).isFlyoutOpen = true)) ∧
    (s.userDetails = none → MgtLogin.onClick env s = MgtLogin.login env s) := by
  constructor
  · intro hud
    refine ⟨?_, ?_, fun hf => ?_⟩ <;>
      simp [MgtLogin.onClick, hud, runActions, applyAction, MgtLogin.showFlyout]
    simp [hf]
  · intro hud
    simp [MgtLogin.onClick, hud]

/-- Witness for C5: both routes at concrete states. -/
theorem C5_witness :
    (sSigned.userDetails.isSome = true ∧
      (MgtLogin.onClick envOk sSigned).trace = [Action.openFlyout] ∧
      (MgtLogin.onClick envOk sSigned).exn = none ∧
      sSigned.flyoutPresent = true ∧
      (runActions sSigned (MgtLogin.onClick envOk sSigned).trace).isFlyoutOpen =
        true) ∧
    (sEmpty.userDetails = none ∧
      MgtLogin.onClick envOk sEmpty = MgtLogin.login envOk sEmpty) :=
  ⟨⟨rfl, ((C5_click_routing envOk sSigned).1 rfl).1,
      ((C5_click_routing envOk sSigned).1 rfl).2.1, rfl,
      ((C5_click_routing envOk sSigned).1 rfl).2.2 rfl⟩,
    ⟨rfl, (C5_click_routing envOk sEmpty).2 rfl⟩⟩

/-- `login()` preserves the flyout invariant: it writes nothing. -/
theorem inv_login (env : Env) (s : WidgetState) (h : Inv s) :
    Inv (runActions s (MgtLogin.login env s).trace) := by
  rw [runActions_eq_of_no_writes _ s (login_trace_no_writes env s)]
  exact h

/-- `logout()` preserves the flyout invariant. -/
theorem inv_logout (env : Env) (s : WidgetState) (h : Inv s) :
    Inv (runActions s (MgtLogin.logout env).trace) := by
  by_cases hal : env.allow EventName.logoutInitiated
  · cases hprov : env.provider with
    | none => simpa [MgtLogin.logout, hal, hprov, runActions, applyAction] using h
    | some p =>
      by_cases hhl : p.hasLogout
      · cases hout : p.logoutOutcome with
        | error e =>
          simpa [MgtLogin.logout, hal, hprov, hhl, hout, runActions,
            applyAction] using h
        | ok u =>
          by_cases hf : s.flyoutPresent
          · intro hopen
            simp [MgtLogin.logout, hal, hprov, hhl, hout, runActions, applyAction,
              MgtLogin.hideFlyout, hf] at hopen
          · intro hopen
            simp [MgtLogin.logout, hal, hprov, hhl, hout, runActions, applyAction,
              MgtLogin.hideFlyout, hf] at hopen
            exact absurd (h hopen).1 hf
      · simpa [MgtLogin.logout, hal, hprov, hhl, runActions, applyAction] using h
  · simpa [MgtLogin.logout, hal, runActions, applyAction] using h

/-- `loadState()` preserves the flyout invariant. -/
theorem inv_loadState (env : Env) (s : WidgetState) (h : Inv s) :
    Inv (runActions s (MgtLogin.loadState env s).trace) := by
  cases hprov : env.provider with
  | none => simpa [MgtLogin.loadState, hprov, runActions] using h
  | some p =>
    by_cases hud : s.userDetails.isSome
    · simpa [MgtLogin.loadState, hprov, hud, runActions] using h
    · have hud' : s.userDetails = none := by
        cases hx : s.userDetails <;> simp [hx] at hud ⊢
      by_cases hst : p.state = ProviderState.SignedIn
      · cases hout : p.batchOutcome with
        | error e =>
          simpa [MgtLogin.loadState, hprov, hud, hst, hout, runActions,
            applyAction] using h
        | ok resp =>
          intro hopen
          simp [MgtLogin.loadState, hprov, hud, hst, hout, runActions,
            applyAction] at hopen
          exact absurd hud' (h hopen).2
      · intro hopen
        simp [MgtLogin.loadState, hprov, hud, hst, runActions,
          applyAction] at hopen
        exact absurd hud' (h hopen).2

/-- `onClick()` preserves the flyout invariant: the flyout is only opened
when user details are present. -/
theorem inv_onClick (env : Env) (s : WidgetState) (h : Inv s) :
    Inv (runActions s (MgtLogin.onClick env s).trace) := by
  by_cases hud : s.userDetails.isSome
  · by_cases hf : s.flyoutPresent
    · intro _
      refine ⟨?_, ?_⟩ <;>
        simp [MgtLogin.onClick, hud, runActions, applyAction,
          MgtLogin.showFlyout, hf]
      exact Option.ne_none_iff_isSome.mpr hud
    · simpa [MgtLogin.onClick, hud, runActions, applyAction,
        MgtLogin.showFlyout, hf] using h
  · have heq : MgtLogin.onClick env s = MgtLogin.login env s := by
      simp [MgtLogin.onClick, hud]
    rw [heq]
    exact inv_login env s h

/-- Every method-level step preserves the flyout invariant. -/
theorem inv_step {s t : WidgetState} (h : Inv s) (hst : Step s t) : Inv t := by
  cases hst with
  | login env s => exact inv_login env s h
  | logout env s => exact inv_logout env s h
  | loadState env s => exact inv_loadState env s h
  | onClick env s => exact inv_onClick env s h

/-- The flyout invariant holds in every reachable widget state. -/
theorem reachable_inv {s : WidgetState} (h : Reachable s) : Inv s := by
  induction h with
  | init fp => intro hopen; simp [MgtLogin.init] at hopen
  | step _ hst ih => exact inv_step ih hst

/-- `sOpen` is reachable: fresh instance, then `loadState`, then a click. -/
theorem sOpen_reachable : Reachable sOpen :=
  Reachable.step
    (Reachable.step (Reachable.init true)
      (Step.loadState envOk (MgtLogin.init true)))
    (Step.onClick envOk sLoaded)

/-- C6: in every state reachable through the widget's methods, an open
flyout implies cached user details are non-null; and `renderFlyoutContent`
renders the profile / sign-out content only when user details are
present. -/
theorem C6_flyout_open_implies_details (s : WidgetState)
    (hs : Reachable s) (hopen : s.isFlyoutOpen = true) :
    s.userDetails ≠ none ∧ MgtLogin.renderFlyoutContent s ≠ none ∧
    (∀ t : WidgetState, t.userDetails = none →
      MgtLogin.renderFlyoutContent t = none) := by
  have h := reachable_inv hs hopen
  refine ⟨h.2, ?_, ?_⟩
  · cases hx : s.userDetails with
    | none => exact absurd hx h.2
    | some d => simp [MgtLogin.renderFlyoutContent, hx]
  · intro t ht
    simp [MgtLogin.renderFlyoutContent, ht]

/-- Witness for C6 at the concrete reachable open-flyout state `sOpen`. -/
theorem C6_witness :
    (Reachable sOpen ∧ sOpen.isFlyoutOpen = true) ∧
    (sOpen.userDetails ≠ none ∧ MgtLogin.renderFlyoutContent sOpen ≠ none ∧
      ∀ t : WidgetState, t.userDetails = none →
        MgtLogin.renderFlyoutContent t = none) :=
  ⟨⟨sOpen_reachable, rfl⟩,
    C6_flyout_open_implies_details sOpen sOpen_reachable rfl⟩

end Mgt
